import Mathlib

/-!
Verification of the inventory manager (`src/inventory/services.py`) against its
specification.  The manager (`InventoryManager`) and the CLI are present in the
repository; the storage layer (`SQLiteRepository` in `repository.py`), the
`Product` model (`models.py`), the JSON loader (`utils.load_initial_json`) and
the dashboard aggregator are declared and called but their files are not part
of the sources, so they are modelled from the specification (each such
definition carries a `Modelled from the spec:` doc comment).

Numbers: Python `float` prices and VAT rates are embedded as `ℚ`, quantities
(Python `int`) as `ℤ`.  Failure is modelled with `Except`: an `Except.error`
result carries no successor state, matching the spec's requirement that every
failure aborts the unit of work with zero observable side effects.
-/

namespace Inventory

/-- Modelled from the spec: the `Product` entity of `models.py` (§3).  The
store-assigned surrogate `id` and the `created_at` timestamp are not modelled;
no claim mentions them. -/
structure Product where
  sku : String
  name : String
  category : String
  unit_price_ht : ℚ
  quantity : ℤ
  vat_rate : ℚ
  deriving DecidableEq, Repr

/-- Modelled from the spec: a row of the sales ledger (§3, `SaleRecord`),
without the `sold_at` timestamp, which no claim mentions. -/
structure SaleRecord where
  sku : String
  quantity : ℤ
  unit_price_ht : ℚ
  vat_rate : ℚ
  total_ht : ℚ
  total_vat : ℚ
  total_ttc : ℚ
  deriving DecidableEq, Repr

/-- The sale summary returned by `sell_product` (the `result` dict of
`services.py`, whose keys are read by `action_sell_product` in `cli.py`). -/
structure SaleSummary where
  sku : String
  quantity : ℤ
  total_ht : ℚ
  total_vat : ℚ
  total_ttc : ℚ
  deriving DecidableEq, Repr

/-- The dashboard statistics value (§4.4 / §6 of the spec). -/
structure Stats where
  sale_count : ℕ
  total_quantity : ℤ
  total_ht : ℚ
  total_vat : ℚ
  total_ttc : ℚ
  deriving DecidableEq, Repr

/-- Error kinds.  In `services.py` every validation failure is a `ValueError`
with a distinct message; the spec's taxonomy (§7) distinguishes the kinds, and
each constructor here corresponds to one raise site / spec kind. -/
inductive Err where
  /-- `sell_product`: "Quantité doit être > 0" (spec: `InvalidArgument`). -/
  | nonPositiveQty
  /-- `add_product` / `update_product`: "Prix HT doit être >= 0". -/
  | negativePrice
  /-- `add_product` / `update_product`: "Quantité doit être >= 0". -/
  | negativeQty
  /-- `add_product` / `update_product`: "TVA doit être entre 0 et 1". -/
  | vatOutOfRange
  /-- `add_product`: "SKU ... existe déjà" (spec: `ConstraintViolation`). -/
  | duplicateSku
  /-- Spec: `NotFound` for update/delete/sell on an absent SKU. -/
  | notFound
  /-- Spec: `InsufficientStock` when sale quantity exceeds stock. -/
  | insufficientStock
  /-- Spec: the bulk-import `ImportError` kind for malformed payloads. -/
  | malformedPayload
  deriving DecidableEq, Repr

/-- The persistent state: the product catalog table and the sales ledger
table of the single relational store (§6 of the spec). -/
structure DB where
  products : List Product
  sales : List SaleRecord
  deriving DecidableEq, Repr

/-- Modelled from the spec: `SQLiteRepository.get_product_by_sku` — returns
the product or a not-found indicator (§4.1 `getBySku`). -/
def get_product_by_sku (db : DB) (sku : String) : Option Product :=
  db.products.find? (fun p => p.sku == sku)

/-- Modelled from the spec: `SQLiteRepository.insert_product` — fails with
`ConstraintViolation` if the SKU already exists, otherwise appends the row
(§4.1 `insert`; listing order is insertion order). -/
def insert_product (db : DB) (p : Product) : Except Err DB :=
  match get_product_by_sku db p.sku with
  | some _ => .error .duplicateSku
  | none => .ok { db with products := db.products ++ [p] }

/-- Apply a SKU-indexed row update to the catalog table (the effect of an SQL
`UPDATE ... WHERE sku = ?`). -/
def updateBySku (f : Product → Product) (sku : String) (l : List Product) : List Product :=
  l.map (fun q => if q.sku == sku then f q else q)

/-- Merge a partial update into a product: every provided field is replaced,
every unprovided (`none`) field keeps its prior value. -/
def applyUpdate (p : Product) (name category : Option String)
    (unit_price_ht : Option ℚ) (quantity : Option ℤ) (vat_rate : Option ℚ) : Product :=
  { p with
    name := name.getD p.name
    category := category.getD p.category
    unit_price_ht := unit_price_ht.getD p.unit_price_ht
    quantity := quantity.getD p.quantity
    vat_rate := vat_rate.getD p.vat_rate }

/-- Modelled from the spec: `SQLiteRepository.update_product` — applies only
the provided fields, fails with `NotFound` if the SKU is absent (§4.1
`update`). -/
def repo_update_product (db : DB) (sku : String) (name category : Option String)
    (unit_price_ht : Option ℚ) (quantity : Option ℤ) (vat_rate : Option ℚ) : Except Err DB :=
  match get_product_by_sku db sku with
  | none => .error .notFound
  | some _ => .ok { db with
      products := updateBySku
        (fun q => applyUpdate q name category unit_price_ht quantity vat_rate) sku db.products }

/-- Modelled from the spec: `SQLiteRepository.sell_product_transaction` — the
transactional sale engine of §4.3, steps 3–9: look up the product (`NotFound`
if absent), check availability (`InsufficientStock` if the stock is smaller
than the requested quantity), decrement the stock, compute the totals from the
product's current price and VAT rate, append the ledger record and return the
sale summary.  The atomic commit of §4.3 step 8 is the single `.ok` state. -/
def sell_product_transaction (db : DB) (sku : String) (quantity : ℤ) :
    Except Err (DB × SaleSummary) :=
  match db.products.find? (fun p => p.sku == sku) with
  | none => .error .notFound
  | some p =>
    if p.quantity < quantity then .error .insufficientStock
    else
      let total_ht : ℚ := (quantity : ℚ) * p.unit_price_ht
      let total_vat : ℚ := total_ht * p.vat_rate
      let total_ttc : ℚ := total_ht + total_vat
      let record : SaleRecord :=
        ⟨sku, quantity, p.unit_price_ht, p.vat_rate, total_ht, total_vat, total_ttc⟩
      let db' : DB :=
        { products := updateBySku (fun q => { q with quantity := q.quantity - quantity })
            sku db.products
          sales := db.sales ++ [record] }
      .ok (db', ⟨sku, quantity, total_ht, total_vat, total_ttc⟩)

/-- `InventoryManager.sell_product` (services.py lines 37–44): reject a
non-positive quantity before any store interaction, then delegate to the
repository transaction. -/
def sell_product (db : DB) (sku : String) (quantity : ℤ) : Except Err (DB × SaleSummary) :=
  if quantity ≤ 0 then .error .nonPositiveQty
  else sell_product_transaction db sku quantity

/-- A product descriptor of the bulk-import payload (§6 of the spec): each
field may be missing in the raw JSON record. -/
structure RawProduct where
  sku : Option String
  name : Option String
  category : Option String
  unit_price_ht : Option ℚ
  quantity : Option ℤ
  vat_rate : Option ℚ
  deriving DecidableEq, Repr

/-- Modelled from the spec: the validation performed by `load_initial_json` /
the `Product` model on each raw record (§4.5, §6): a missing required field or
a violated Product invariant (negative price, negative quantity, out-of-range
tax rate) fails with the `ImportError` kind. -/
def RawProduct.validate (r : RawProduct) : Except Err Product :=
  match r.sku, r.name, r.category, r.unit_price_ht, r.quantity, r.vat_rate with
  | some sku, some name, some category, some price, some qty, some vat =>
    if price < 0 then .error .malformedPayload
    else if qty < 0 then .error .malformedPayload
    else if ¬(0 ≤ vat ∧ vat ≤ 1) then .error .malformedPayload
    else .ok ⟨sku, name, category, price, qty, vat⟩
  | _, _, _, _, _, _ => .error .malformedPayload

/-- `InventoryManager.initialize_from_json` (services.py lines 46–72): load
and validate the payload (the loader runs before the reset, as in the source),
reset the catalog when requested (`reset_and_create_schema`, which per §4.5
destroys and recreates the catalog schema, clearing existing products), then
insert every product in order, returning the number inserted. -/
def initialize_from_json (db : DB) (raw : List RawProduct) (reset : Bool) :
    Except Err (DB × ℕ) := do
  let products ← raw.mapM RawProduct.validate
  let db0 := if reset then { db with products := [] } else db
  let db1 ← products.foldlM insert_product db0
  return (db1, products.length)

/-- `InventoryManager.list_inventory` (services.py lines 74–77): returns the
catalog rows (`create_schema_if_needed` is an idempotent schema no-op on an
existing store and has no effect on the model state). -/
def list_inventory (db : DB) : List Product :=
  db.products

/-- `InventoryManager.add_product` (services.py lines 79–105): validate price,
quantity and VAT rate, check SKU uniqueness via `get_product_by_sku`, then
insert. -/
def add_product (db : DB) (sku name category : String) (unit_price_ht : ℚ)
    (quantity : ℤ) (vat_rate : ℚ) : Except Err DB :=
  if unit_price_ht < 0 then .error .negativePrice
  else if quantity < 0 then .error .negativeQty
  else if ¬(0 ≤ vat_rate ∧ vat_rate ≤ 1) then .error .vatOutOfRange
  else match get_product_by_sku db sku with
    | some _ => .error .duplicateSku
    | none => insert_product db ⟨sku, name, category, unit_price_ht, quantity, vat_rate⟩

/-- `InventoryManager.add_product` invoked without a `vat_rate` argument: the
Python signature declares `vat_rate: float = 0.20`, so the call is the same
as passing `0.20` explicitly. -/
def add_product_default_vat (db : DB) (sku name category : String) (unit_price_ht : ℚ)
    (quantity : ℤ) : Except Err DB :=
  add_product db sku name category unit_price_ht quantity (20 / 100)

/-- `InventoryManager.update_product` (services.py lines 107–122): validate
each provided field (a `none` field is not validated, mirroring the Python
`x is not None and ...` guards), then delegate to the repository update. -/
def update_product (db : DB) (sku : String) (name category : Option String)
    (unit_price_ht : Option ℚ) (quantity : Option ℤ) (vat_rate : Option ℚ) : Except Err DB :=
  if unit_price_ht.any (fun x => decide (x < 0)) then .error .negativePrice
  else if quantity.any (fun x => decide (x < 0)) then .error .negativeQty
  else if vat_rate.any (fun v => !(decide (0 ≤ v) && decide (v ≤ 1))) then .error .vatOutOfRange
  else repo_update_product db sku name category unit_price_ht quantity vat_rate

/-- Modelled from the spec: the Dashboard Aggregator (§4.4) — scan the full
ledger and accumulate the count, the total quantity and the three monetary
totals; `services.py` marks the dashboard as a TODO and only its caller
(`action_dashboard` in cli.py) is in the sources. -/
def computeStats : List SaleRecord → Stats
  | [] => ⟨0, 0, 0, 0, 0⟩
  | r :: rest =>
    let s := computeStats rest
    ⟨s.sale_count + 1, s.total_quantity + r.quantity, s.total_ht + r.total_ht,
      s.total_vat + r.total_vat, s.total_ttc + r.total_ttc⟩

/-- Modelled from the spec: `getDashboard()` (§6) returns the aggregator's
stats value computed over the sales ledger. -/
def get_dashboard (db : DB) : Stats :=
  computeStats db.sales

/-- A sample catalog product used by the concrete witnesses. -/
def pA : Product := ⟨"A1", "Widget", "Tools", 10, 5, 1 / 5⟩

/-- A second sample catalog product used by the concrete witnesses. -/
def pB : Product := ⟨"B2", "Nail", "Hardware", 2, 50, 1 / 10⟩

/-- A sample store state used by the concrete witnesses. -/
def dbA : DB := ⟨[pA, pB], []⟩

theorem find?_append_of_none {α : Type} (p : α → Bool) (l1 l2 : List α)
    (h : l1.find? p = none) : (l1 ++ l2).find? p = l2.find? p := by
  rw [List.find?_append, h, Option.none_or]

theorem find?_map_sku (g : Product → Product) (hg : ∀ q, (g q).sku = q.sku) (t : String)
    (l : List Product) :
    (l.map g).find? (fun x => x.sku == t) = (l.find? (fun x => x.sku == t)).map g := by
  induction l with
  | nil => rfl
  | cons a l ih =>
    rw [List.map_cons, List.find?_cons, List.find?_cons, hg a]
    cases hp : (a.sku == t) <;> simp [hp]
    simpa using ih

theorem find?_updateBySku_self (f : Product → Product) (hf : ∀ q, (f q).sku = q.sku)
    (s : String) (l : List Product) (p : Product)
    (h : l.find? (fun x => x.sku == s) = some p) :
    (updateBySku f s l).find? (fun x => x.sku == s) = some (f p) := by
  have hg : ∀ q, ((fun q => if q.sku == s then f q else q) q).sku = q.sku := by
    intro q
    cases hq : (q.sku == s) <;> simp [hq, hf q]
  rw [updateBySku, find?_map_sku _ hg, h]
  have hp := List.find?_some h
  simp only [Option.map_some']
  simp at hp
  simp [hp]

theorem find?_updateBySku_other (f : Product → Product) (hf : ∀ q, (f q).sku = q.sku)
    (s t : String) (ht : t ≠ s) (l : List Product) :
    (updateBySku f s l).find? (fun x => x.sku == t) = l.find? (fun x => x.sku == t) := by
  have hg : ∀ q, ((fun q => if q.sku == s then f q else q) q).sku = q.sku := by
    intro q
    cases hq : (q.sku == s) <;> simp [hq, hf q]
  rw [updateBySku, find?_map_sku _ hg]
  cases h : l.find? (fun x => x.sku == t) with
  | none => rfl
  | some p =>
    have hp : p.sku = t := by simpa using List.find?_some h
    have hps : (p.sku == s) = false := by
      simp [hp]
      exact ht
    simp only [Option.map_some']
    rw [if_neg (by simp [hps])]

/-- C1: for a product in the catalog with stock `S` and any `0 < qty ≤ S`,
`sell_product` succeeds, decreases that product's stock by exactly `qty`,
appends exactly one ledger record with `total_ht = qty * unit_price_ht`,
`total_vat = total_ht * vat_rate` and `total_ttc = total_ht + total_vat`
(taken from the product's price and VAT rate at the moment of sale), and
returns the sale summary with those fields. -/
theorem C1_sell_product_correct (db : DB) (sku : String) (qty : ℤ) (p : Product)
    (hfind : get_product_by_sku db sku = some p)
    (hpos : 0 < qty) (hle : qty ≤ p.quantity) :
    ∃ db' : DB,
      sell_product db sku qty =
        .ok (db', ⟨sku, qty, (qty : ℚ) * p.unit_price_ht,
          (qty : ℚ) * p.unit_price_ht * p.vat_rate,
          (qty : ℚ) * p.unit_price_ht + (qty : ℚ) * p.unit_price_ht * p.vat_rate⟩) ∧
      get_product_by_sku db' sku = some { p with quantity := p.quantity - qty } ∧
      db'.sales = db.sales ++
        [⟨sku, qty, p.unit_price_ht, p.vat_rate, (qty : ℚ) * p.unit_price_ht,
          (qty : ℚ) * p.unit_price_ht * p.vat_rate,
          (qty : ℚ) * p.unit_price_ht + (qty : ℚ) * p.unit_price_ht * p.vat_rate⟩] := by
  have hfind' : db.products.find? (fun q => q.sku == sku) = some p := hfind
  have h1 : ¬ qty ≤ 0 := by omega
  have h2 : ¬ p.quantity < qty := by omega
  refine ⟨⟨updateBySku (fun q => { q with quantity := q.quantity - qty }) sku db.products,
      db.sales ++ [⟨sku, qty, p.unit_price_ht, p.vat_rate, (qty : ℚ) * p.unit_price_ht,
        (qty : ℚ) * p.unit_price_ht * p.vat_rate,
        (qty : ℚ) * p.unit_price_ht + (qty : ℚ) * p.unit_price_ht * p.vat_rate⟩]⟩,
    ?_, ?_, rfl⟩
  · simp [sell_product, if_neg h1, sell_product_transaction, hfind', if_neg h2]
  · exact find?_updateBySku_self (fun q => { q with quantity := q.quantity - qty })
      (fun q => rfl) sku db.products p hfind'

/-- Witness for C1: selling 2 units of the sample product "A1" (stock 5). -/
theorem C1_witness :
    ∃ db' : DB,
      sell_product dbA "A1" 2 =
        .ok (db', ⟨"A1", 2, (2 : ℚ) * pA.unit_price_ht,
          (2 : ℚ) * pA.unit_price_ht * pA.vat_rate,
          (2 : ℚ) * pA.unit_price_ht + (2 : ℚ) * pA.unit_price_ht * pA.vat_rate⟩) ∧
      get_product_by_sku db' "A1" = some { pA with quantity := pA.quantity - 2 } ∧
      db'.sales = dbA.sales ++
        [⟨"A1", 2, pA.unit_price_ht, pA.vat_rate, (2 : ℚ) * pA.unit_price_ht,
          (2 : ℚ) * pA.unit_price_ht * pA.vat_rate,
          (2 : ℚ) * pA.unit_price_ht + (2 : ℚ) * pA.unit_price_ht * pA.vat_rate⟩] :=
  C1_sell_product_correct dbA "A1" 2 pA rfl (by decide) (by decide)

/-- C2: when the requested quantity exceeds the product's current stock,
`sell_product` fails with `InsufficientStock`; in this pure embedding a
failing call returns no successor state, so the stock is unchanged and no
ledger record is appended. -/
theorem C2_insufficient_stock (db : DB) (sku : String) (qty : ℤ) (p : Product)
    (hfind : get_product_by_sku db sku = some p)
    (hstock : 0 ≤ p.quantity) (hgt : p.quantity < qty) :
    sell_product db sku qty = .error .insufficientStock := by
  have hfind' : db.products.find? (fun q => q.sku == sku) = some p := hfind
  have h1 : ¬ qty ≤ 0 := by omega
  simp [sell_product, if_neg h1, sell_product_transaction, hfind', if_pos hgt]

/-- Witness for C2: selling 6 units of "A1" (stock 5) fails. -/
theorem C2_witness : sell_product dbA "A1" 6 = .error .insufficientStock :=
  C2_insufficient_stock dbA "A1" 6 pA rfl (by decide) (by decide)

/-- C4: a non-positive quantity is rejected by the manager's validation
before any store interaction (`services.py` lines 39–40): the call fails with
the `InvalidArgument` kind and, the repository never being reached, neither
the catalog nor the ledger is touched. -/
theorem C4_nonpositive_quantity (db : DB) (sku : String) (qty : ℤ) (h : qty ≤ 0) :
    sell_product db sku qty = .error .nonPositiveQty := by
  simp [sell_product, if_pos h]

/-- Witness for C4: selling 0 units fails with the validation error. -/
theorem C4_witness : sell_product dbA "A1" 0 = .error .nonPositiveQty :=
  C4_nonpositive_quantity dbA "A1" 0 (by decide)

theorem computeStats_eq (l : List SaleRecord) :
    computeStats l = ⟨l.length, (l.map SaleRecord.quantity).sum,
      (l.map SaleRecord.total_ht).sum, (l.map SaleRecord.total_vat).sum,
      (l.map SaleRecord.total_ttc).sum⟩ := by
  induction l with
  | nil => rfl
  | cons r rest ih =>
    simp only [computeStats, ih, List.map_cons, List.sum_cons, List.length_cons,
      Stats.mk.injEq]
    refine ⟨trivial, by ring, by ring, by ring, by ring⟩

/-- C3: the dashboard returns the number of ledger records, the sum of their
quantities and the sums of the three stored monetary fields; on an empty
ledger it returns the all-zero stats value rather than failing. -/
theorem C3_dashboard_totals (db : DB) :
    get_dashboard db =
      ⟨db.sales.length, (db.sales.map SaleRecord.quantity).sum,
        (db.sales.map SaleRecord.total_ht).sum, (db.sales.map SaleRecord.total_vat).sum,
        (db.sales.map SaleRecord.total_ttc).sum⟩ ∧
    get_dashboard ⟨db.products, []⟩ = ⟨0, 0, 0, 0, 0⟩ := by
  exact ⟨computeStats_eq db.sales, rfl⟩

/-- C7: a partial update of an existing product replaces exactly the provided
fields, every unprovided field keeps its prior value, every other product's
row is unchanged, and the ledger is untouched. -/
theorem C7_partial_update (db : DB) (sku : String) (p : Product)
    (name category : Option String) (price : Option ℚ) (qty : Option ℤ) (vat : Option ℚ)
    (hfind : get_product_by_sku db sku = some p)
    (hp : ∀ x, price = some x → 0 ≤ x)
    (hq : ∀ n, qty = some n → 0 ≤ n)
    (hv : ∀ v, vat = some v → 0 ≤ v ∧ v ≤ 1) :
    ∃ db' : DB,
      update_product db sku name category price qty vat = .ok db' ∧
      get_product_by_sku db' sku =
        some ⟨p.sku, name.getD p.name, category.getD p.category, price.getD p.unit_price_ht,
          qty.getD p.quantity, vat.getD p.vat_rate⟩ ∧
      (∀ t, t ≠ sku → get_product_by_sku db' t = get_product_by_sku db t) ∧
      db'.sales = db.sales := by
  have h1 : ¬ (price.any (fun x => decide (x < 0)) = true) := by
    cases price with
    | none => simp
    | some x => simpa using not_lt.mpr (hp x rfl)
  have h2 : ¬ (qty.any (fun x => decide (x < 0)) = true) := by
    cases qty with
    | none => simp
    | some n => simpa using not_lt.mpr (hq n rfl)
  have h3 : ¬ (vat.any (fun v => !(decide (0 ≤ v) && decide (v ≤ 1))) = true) := by
    cases vat with
    | none => simp
    | some v => simpa using hv v rfl
  refine ⟨⟨updateBySku (fun q => applyUpdate q name category price qty vat) sku db.products, db.sales⟩, ?_, ?_, ?_, rfl⟩
  · rw [update_product, if_neg h1, if_neg h2, if_neg h3]
    simp only [repo_update_product, hfind]
  · exact find?_updateBySku_self (fun q => applyUpdate q name category price qty vat)
      (fun q => rfl) sku db.products p hfind
  · intro t ht
    exact find?_updateBySku_other (fun q => applyUpdate q name category price qty vat)
      (fun q => rfl) sku t ht db.products

/-- Witness for C7: updating only the name and the price of "A1". -/
theorem C7_witness :
    ∃ db' : DB,
      update_product dbA "A1" (some "Widget v2") none (some 12) none none = .ok db' ∧
      get_product_by_sku db' "A1" =
        some ⟨pA.sku, (some "Widget v2").getD pA.name, (none : Option String).getD pA.category,
          (some (12 : ℚ)).getD pA.unit_price_ht, (none : Option ℤ).getD pA.quantity,
          (none : Option ℚ).getD pA.vat_rate⟩ ∧
      (∀ t, t ≠ "A1" → get_product_by_sku db' t = get_product_by_sku dbA t) ∧
      db'.sales = dbA.sales :=
  C7_partial_update dbA "A1" pA (some "Widget v2") none (some 12) none none rfl
    (fun x hx => by injection hx with h; subst h; decide)
    (fun n hn => Option.noConfusion hn)
    (fun v hv => Option.noConfusion hv)

/-- C8: adding a product whose SKU already exists fails with the
`ConstraintViolation` kind (the duplicate-SKU check of services.py lines
90–93); the failing call returns no successor state, so the catalog is
unchanged. -/
theorem C8_duplicate_sku (db : DB) (sku name category : String) (price : ℚ) (qty : ℤ)
    (vat : ℚ) (p : Product) (hfind : get_product_by_sku db sku = some p)
    (hpr : 0 ≤ price) (hq : (0 : ℤ) ≤ qty) (hv : 0 ≤ vat ∧ vat ≤ 1) :
    add_product db sku name category price qty vat = .error .duplicateSku := by
  have h1 : ¬ price < 0 := not_lt.mpr hpr
  have h2 : ¬ qty < 0 := not_lt.mpr hq
  have h3 : ¬ ¬ (0 ≤ vat ∧ vat ≤ 1) := not_not_intro hv
  simp [add_product, if_neg h1, if_neg h2, hfind, hv]

/-- Witness for C8: re-adding SKU "A1", which the sample catalog contains. -/
theorem C8_witness :
    add_product dbA "A1" "Widget clone" "Tools" 3 7 0 = .error .duplicateSku :=
  C8_duplicate_sku dbA "A1" "Widget clone" "Tools" 3 7 0 pA rfl (by decide) (by decide)
    ⟨by decide, by decide⟩

/-- C9: an update supplying a negative quantity, a negative price or an
out-of-range VAT rate is rejected by the manager's validation (services.py
lines 113–119) with the corresponding `ValidationError` kind, before the
repository is called, so the stored product is unchanged. -/
theorem C9_update_validation (db : DB) (sku : String) (name category : Option String)
    (price : Option ℚ) (qty : Option ℤ) (vat : Option ℚ)
    (hbad : (∃ x, price = some x ∧ x < 0) ∨ (∃ n, qty = some n ∧ n < 0) ∨
      (∃ v, vat = some v ∧ ¬(0 ≤ v ∧ v ≤ 1))) :
    ∃ e : Err, update_product db sku name category price qty vat = .error e ∧
      (e = .negativePrice ∨ e = .negativeQty ∨ e = .vatOutOfRange) := by
  by_cases h1 : price.any (fun x => decide (x < 0)) = true
  · exact ⟨.negativePrice, by simp [update_product, h1], Or.inl rfl⟩
  · by_cases h2 : qty.any (fun x => decide (x < 0)) = true
    · exact ⟨.negativeQty, by simp [update_product, h1, h2], Or.inr (Or.inl rfl)⟩
    · by_cases h3 : vat.any (fun v => !(decide (0 ≤ v) && decide (v ≤ 1))) = true
      · exact ⟨.vatOutOfRange,
          by rw [update_product, if_neg h1, if_neg h2, if_pos h3], Or.inr (Or.inr rfl)⟩
      · exfalso
        rcases hbad with ⟨x, hx, hlt⟩ | ⟨n, hn, hlt⟩ | ⟨v, hvv, hrange⟩
        · exact h1 (by simp [hx, hlt])
        · exact h2 (by simp [hn, hlt])
        · apply h3
          rw [hvv]
          show (!(decide (0 ≤ v) && decide (v ≤ 1))) = true
          rcases not_and_or.mp hrange with hnv | hnv
          · simp [hnv]
          · simp [hnv]

/-- Witness for C9: updating "A1" with quantity −1 fails with a validation
error. -/
theorem C9_witness :
    ∃ e : Err, update_product dbA "A1" none none none (some (-1)) none = .error e ∧
      (e = .negativePrice ∨ e = .negativeQty ∨ e = .vatOutOfRange) :=
  C9_update_validation dbA "A1" none none none (some (-1)) none
    (Or.inr (Or.inl ⟨-1, rfl, by decide⟩))

/-- C10: calling `add_product` without a `vat_rate` argument is the same call
with the declared default `0.20`, and on success the created product is
stored with `vat_rate = 0.20`. -/
theorem C10_default_vat (db : DB) (sku name category : String) (price : ℚ) (qty : ℤ)
    (db' : DB) (h : add_product_default_vat db sku name category price qty = .ok db') :
    add_product_default_vat db sku name category price qty =
      add_product db sku name category price qty (20 / 100) ∧
    get_product_by_sku db' sku = some ⟨sku, name, category, price, qty, 20 / 100⟩ := by
  refine ⟨rfl, ?_⟩
  rw [add_product_default_vat, add_product] at h
  by_cases h1 : price < 0
  · rw [if_pos h1] at h
    exact absurd h (by simp)
  rw [if_neg h1] at h
  by_cases h2 : qty < 0
  · rw [if_pos h2] at h
    exact absurd h (by simp)
  rw [if_neg h2] at h
  rw [if_neg (by norm_num)] at h
  cases hget : get_product_by_sku db sku with
  | some q =>
    rw [hget] at h
    exact absurd h (by simp)
  | none =>
    rw [hget] at h
    have hget' : get_product_by_sku db
        (⟨sku, name, category, price, qty, 20 / 100⟩ : Product).sku = none := hget
    simp only [insert_product, hget'] at h
    injection h with h'
    subst h'
    have hnone : db.products.find? (fun x => x.sku == sku) = none := hget
    rw [get_product_by_sku]
    rw [show ({ db with products :=
        db.products ++ [⟨sku, name, category, price, qty, 20 / 100⟩]} : DB).products =
      db.products ++ [⟨sku, name, category, price, qty, 20 / 100⟩] from rfl]
    rw [find?_append_of_none _ _ _ hnone]
    simp [List.find?]

/-- Witness for C10: adding a new SKU "C3" without a VAT rate stores it with
`vat_rate = 0.20`. -/
theorem C10_witness :
    add_product_default_vat dbA "C3" "Hammer" "Tools" 15 4 =
      add_product dbA "C3" "Hammer" "Tools" 15 4 (20 / 100) ∧
    get_product_by_sku
      ⟨dbA.products ++ [⟨"C3", "Hammer", "Tools", 15, 4, 20 / 100⟩], dbA.sales⟩ "C3" =
      some ⟨"C3", "Hammer", "Tools", 15, 4, 20 / 100⟩ :=
  C10_default_vat dbA "C3" "Hammer" "Tools" 15 4
    ⟨dbA.products ++ [⟨"C3", "Hammer", "Tools", 15, 4, 20 / 100⟩], dbA.sales⟩
    (by norm_num [add_product_default_vat, add_product, get_product_by_sku, dbA, pA, pB,
      insert_product, List.find?]
        rfl)

theorem validate_error_eq (r : RawProduct) (e : Err) (h : r.validate = .error e) :
    e = .malformedPayload := by
  unfold RawProduct.validate at h
  split at h
  · split_ifs at h <;> simp_all
  · simp_all

theorem validate_bad (r : RawProduct)
    (hbad : r.sku = none ∨ r.name = none ∨ r.category = none ∨ r.unit_price_ht = none ∨
      r.quantity = none ∨ r.vat_rate = none ∨
      (∃ x, r.unit_price_ht = some x ∧ x < 0) ∨ (∃ n, r.quantity = some n ∧ n < 0) ∨
      (∃ v, r.vat_rate = some v ∧ ¬(0 ≤ v ∧ v ≤ 1))) :
    r.validate = .error .malformedPayload := by
  obtain ⟨os, onm, oc, opr, oqt, ovt⟩ := r
  unfold RawProduct.validate
  cases os with
  | none => rfl
  | some s =>
  cases onm with
  | none => rfl
  | some n =>
  cases oc with
  | none => rfl
  | some c =>
  cases opr with
  | none => rfl
  | some pr =>
  cases oqt with
  | none => rfl
  | some q =>
  cases ovt with
  | none => rfl
  | some v =>
  dsimp only at hbad ⊢
  by_cases h1 : pr < 0
  · rw [if_pos h1]
  rw [if_neg h1]
  by_cases h2 : q < 0
  · rw [if_pos h2]
  rw [if_neg h2]
  by_cases h3 : ¬(0 ≤ v ∧ v ≤ 1)
  · rw [if_pos h3]
  rw [if_neg h3]
  exfalso
  rcases hbad with h | h | h | h | h | h | ⟨x, hx, hlt⟩ | ⟨m, hm, hlt⟩ | ⟨w, hw, hr⟩
  · exact Option.noConfusion h
  · exact Option.noConfusion h
  · exact Option.noConfusion h
  · exact Option.noConfusion h
  · exact Option.noConfusion h
  · exact Option.noConfusion h
  · injection hx with hx'
    subst hx'
    exact h1 hlt
  · injection hm with hm'
    subst hm'
    exact h2 hlt
  · injection hw with hw'
    subst hw'
    exact hr (not_not.mp h3)

theorem mapM_validate_error (raw : List RawProduct) (r : RawProduct) (hr : r ∈ raw)
    (hbad : r.validate = .error .malformedPayload) :
    raw.mapM RawProduct.validate = .error .malformedPayload := by
  induction raw with
  | nil => cases hr
  | cons a l ih =>
    rw [List.mapM_cons]
    cases ha : a.validate with
    | error e =>
      have he := validate_error_eq a e ha
      subst he
      rfl
    | ok p =>
      rcases List.mem_cons.mp hr with rfl | hmem
      · rw [ha] at hbad
        exact absurd hbad (by simp)
      · rw [ih hmem]
        rfl

theorem mapM_ok_length {α β : Type} (f : α → Except Err β) :
    ∀ (l : List α) (bs : List β), l.mapM f = .ok bs → bs.length = l.length
  | [], bs, h => by
    have h' : (Except.ok ([] : List β) : Except Err (List β)) = .ok bs := h
    injection h' with h''
    rw [← h'']
    rfl
  | a :: l, bs, h => by
    rw [List.mapM_cons] at h
    cases ha : f a with
    | error e =>
      rw [ha] at h
      have h' : (Except.error e : Except Err (List β)) = .ok bs := h
      exact Except.noConfusion h'
    | ok b =>
      rw [ha] at h
      cases hm : l.mapM f with
      | error e =>
        rw [hm] at h
        have h' : (Except.error e : Except Err (List β)) = .ok bs := h
        exact Except.noConfusion h'
      | ok bs' =>
        rw [hm] at h
        have h' : (Except.ok (b :: bs') : Except Err (List β)) = .ok bs := h
        injection h' with h''
        rw [← h'']
        simp [mapM_ok_length f l bs' hm]

theorem foldlM_insert_append :
    ∀ (ps : List Product) (db : DB),
      (∀ p ∈ ps, get_product_by_sku db p.sku = none) →
      (ps.map Product.sku).Nodup →
      ps.foldlM insert_product db = .ok ⟨db.products ++ ps, db.sales⟩
  | [], db, _, _ => by
    show Except.ok db = Except.ok ⟨db.products ++ [], db.sales⟩
    simp
  | p :: ps, db, h1, h2 => by
    have hn : get_product_by_sku db p.sku = none := h1 p (List.mem_cons_self p ps)
    have hins : insert_product db p = .ok ⟨db.products ++ [p], db.sales⟩ := by
      rw [insert_product, hn]
    have hpair : (∀ x ∈ ps, ¬x.sku = p.sku) ∧ (List.map Product.sku ps).Nodup := by
      simpa using h2
    have h1' : ∀ q ∈ ps, get_product_by_sku ⟨db.products ++ [p], db.sales⟩ q.sku = none := by
      intro q hq
      have hq1 : db.products.find? (fun x => x.sku == q.sku) = none :=
        h1 q (List.mem_cons_of_mem p hq)
      have hne : p.sku ≠ q.sku := fun hEq => hpair.1 q hq hEq.symm
      show (db.products ++ [p]).find? (fun x => x.sku == q.sku) = none
      rw [find?_append_of_none _ _ _ hq1]
      simp [List.find?_cons, hne]
    have h2' : (ps.map Product.sku).Nodup := hpair.2
    rw [List.foldlM_cons, hins]
    show ps.foldlM insert_product ⟨db.products ++ [p], db.sales⟩ = _
    rw [foldlM_insert_append ps ⟨db.products ++ [p], db.sales⟩ h1' h2']
    simp

/-- C5: importing any list of valid product descriptors (distinct SKUs) with
`reset = true` succeeds with the number of imported records, and a subsequent
`list_inventory` returns exactly the imported products, in the same count,
with every field equal to the input descriptor's. -/
theorem C5_import_roundtrip (db : DB) (raw : List RawProduct) (ps : List Product)
    (hval : raw.mapM RawProduct.validate = .ok ps)
    (hnodup : (ps.map Product.sku).Nodup) :
    ∃ db' : DB, initialize_from_json db raw true = .ok (db', ps.length) ∧
      list_inventory db' = ps ∧ ps.length = raw.length := by
  have hfold := foldlM_insert_append ps ⟨[], db.sales⟩ (fun p _ => rfl) hnodup
  refine ⟨⟨ps, db.sales⟩, ?_, rfl, mapM_ok_length RawProduct.validate raw ps hval⟩
  rw [initialize_from_json, hval]
  show (ps.foldlM insert_product (if true then ⟨[], db.sales⟩ else db)) >>= _ = _
  rw [if_pos rfl, hfold]
  rfl

/-- Witness for C5: importing one valid descriptor into the sample store. -/
theorem C5_witness :
    ∃ db' : DB,
      initialize_from_json dbA
          [⟨some "G1", some "Glue", some "Misc", some 3, some 8, some 0⟩] true =
        .ok (db', [(⟨"G1", "Glue", "Misc", 3, 8, 0⟩ : Product)].length) ∧
      list_inventory db' = [⟨"G1", "Glue", "Misc", 3, 8, 0⟩] ∧
      [(⟨"G1", "Glue", "Misc", 3, 8, 0⟩ : Product)].length =
        [(⟨some "G1", some "Glue", some "Misc", some 3, some 8, some 0⟩ : RawProduct)].length :=
  C5_import_roundtrip dbA
    [⟨some "G1", some "Glue", some "Misc", some 3, some 8, some 0⟩]
    [⟨"G1", "Glue", "Misc", 3, 8, 0⟩] rfl (by simp)

/-- C6: a bulk import whose payload contains a record with a missing required
field, a negative price, a negative quantity or an out-of-range VAT rate fails
with the `ImportError` kind. -/
theorem C6_import_rejects_bad_record (db : DB) (raw : List RawProduct) (reset : Bool)
    (r : RawProduct) (hr : r ∈ raw)
    (hbad : r.sku = none ∨ r.name = none ∨ r.category = none ∨ r.unit_price_ht = none ∨
      r.quantity = none ∨ r.vat_rate = none ∨
      (∃ x, r.unit_price_ht = some x ∧ x < 0) ∨ (∃ n, r.quantity = some n ∧ n < 0) ∨
      (∃ v, r.vat_rate = some v ∧ ¬(0 ≤ v ∧ v ≤ 1))) :
    initialize_from_json db raw reset = .error .malformedPayload := by
  have hm := mapM_validate_error raw r hr (validate_bad r hbad)
  rw [initialize_from_json, hm]
  rfl

/-- Witness for C6: a payload whose second record is missing its name. -/
theorem C6_witness :
    initialize_from_json dbA
      [⟨some "G1", some "Glue", some "Misc", some 3, some 8, some 0⟩,
        ⟨some "X9", none, some "Misc", some 1, some 1, some 0⟩] true =
      .error .malformedPayload :=
  C6_import_rejects_bad_record dbA
    [⟨some "G1", some "Glue", some "Misc", some 3, some 8, some 0⟩,
      ⟨some "X9", none, some "Misc", some 1, some 1, some 0⟩] true
    ⟨some "X9", none, some "Misc", some 1, some 1, some 0⟩
    (List.mem_cons_of_mem _ (List.mem_cons_self _ _))
    (Or.inr (Or.inl rfl))

end Inventory
